import Mathlib

/-!
Verification of the transactional money-transfer layer in `db/sqlc/store.go`.

The Go code is shallowly embedded as pure Lean functions:

* the database is a `DBState` (accounts, ledger entries, transfer records,
  plus the next serial ids the store would assign);
* each sqlc query primitive (`CreateTransfer`, `CreateEntry`, `GetAccount`,
  `UpdateAccount`) is a function from a query-handle state `QState` to
  `Except String (result × QState)`, mirroring the `(value, error)` pairs of
  the Go calls.  `QState` additionally carries an operation trace (the order
  in which statements are issued) and an injected-fault index, so that
  failure of any individual statement can be exercised;
* `execTx` mirrors `Store.execTx`: begin, run the unit of work, then roll
  back (restoring the snapshot) on failure or commit on success, with the
  begin/commit/rollback outcomes supplied by a `TxEnv`;
* `TransferTx` mirrors `Store.TransferTx`, including the Go closure that
  keeps partially-assigned result fields even when a later statement fails
  (the `TransferTxResult` component is threaded through `execTx`'s extra
  output and is not rolled back, exactly like the captured Go variable).

The `fmt.Println` diagnostics and the `txKey` context value of the source
affect no observable state and are omitted.
-/

namespace SimpleBank

/-- An `accounts` row: id, owner, balance, currency. -/
structure Account where
  id : Int
  owner : String
  balance : Int
  currency : String
deriving DecidableEq, Repr

/-- An `entries` row: serial id, account id, signed amount. -/
structure Entry where
  id : Int
  accountID : Int
  amount : Int
deriving DecidableEq, Repr

/-- A `transfers` row: serial id, source account, destination account, amount. -/
structure Transfer where
  id : Int
  fromAccountID : Int
  toAccountID : Int
  amount : Int
deriving DecidableEq, Repr

/-- The persistent store: table contents plus the next serial ids. -/
structure DBState where
  accounts : List Account
  entries : List Entry
  transfers : List Transfer
  nextEntryID : Int
  nextTransferID : Int
deriving DecidableEq, Repr

/-- A fresh database holding the given accounts and no entries or transfers. -/
def mkDB (accts : List Account) : DBState :=
  { accounts := accts, entries := [], transfers := [], nextEntryID := 1, nextTransferID := 1 }

/-- One issued statement, as recorded in the query-handle trace. -/
inductive Op where
  | opCreateTransfer (fromID toID amount : Int)
  | opCreateEntry (accountID amount : Int)
  | opGetAccount (id : Int)
  | opUpdateAccount (id balance : Int)
deriving DecidableEq, Repr

/-- Query-handle state: the database seen by this transaction, an optional
injected fault (the 0-based index of the statement that fails), the number of
statements issued so far, and the trace of issued statements. -/
structure QState where
  db : DBState
  failAt : Option Nat
  step : Nat
  log : List Op
deriving DecidableEq, Repr

/-- Whether the next statement is the one chosen to fail. -/
def atFault (s : QState) : Bool :=
  s.failAt = some s.step

/-- Record one issued statement in the trace. -/
def noteOp (op : Op) (s : QState) : QState :=
  { s with step := s.step + 1, log := s.log ++ [op] }

/-- Error message used for an injected statement failure. -/
def injectedErr : String := "injected failure"

/-- Error returned by a lookup that matches no row (`sql.ErrNoRows`). -/
def noRowsErr : String := "sql: no rows in result set"

/-- SQL `SELECT * FROM accounts WHERE id = $1`: first row with the given id. -/
def lookupAccount : List Account → Int → Option Account
  | [], _ => none
  | a :: rest, i => if a.id = i then some a else lookupAccount rest i

/-- SQL `UPDATE accounts SET balance = $2 WHERE id = $1`: replace the balance of
the row with the given id (ids are the primary key, so at most one row). -/
def updateBalanceRows : List Account → Int → Int → List Account
  | [], _, _ => []
  | a :: rest, i, bal =>
      if a.id = i then { a with balance := bal } :: rest
      else a :: updateBalanceRows rest i bal

/-- Parameters of `q.CreateTransfer`. -/
structure CreateTransferParams where
  fromAccountID : Int
  toAccountID : Int
  amount : Int
deriving DecidableEq, Repr

/-- Parameters of `q.CreateEntry`. -/
structure CreateEntryParams where
  accountID : Int
  amount : Int
deriving DecidableEq, Repr

/-- Parameters of `q.UpdateAccount`. -/
structure UpdateAccountParams where
  id : Int
  balance : Int
deriving DecidableEq, Repr

/-- Query `q.CreateTransfer`: insert a transfer row and return it. -/
def CreateTransfer (arg : CreateTransferParams) (s : QState) :
    Except String (Transfer × QState) :=
  if atFault s then Except.error injectedErr else
  let s1 := noteOp (Op.opCreateTransfer arg.fromAccountID arg.toAccountID arg.amount) s
  let t : Transfer :=
    { id := s1.db.nextTransferID, fromAccountID := arg.fromAccountID,
      toAccountID := arg.toAccountID, amount := arg.amount }
  let db1 := { s1.db with transfers := s1.db.transfers ++ [t], nextTransferID := s1.db.nextTransferID + 1 }
  Except.ok (t, { s1 with db := db1 })

/-- Query `q.CreateEntry`: insert a ledger-entry row and return it. -/
def CreateEntry (arg : CreateEntryParams) (s : QState) :
    Except String (Entry × QState) :=
  if atFault s then Except.error injectedErr else
  let s1 := noteOp (Op.opCreateEntry arg.accountID arg.amount) s
  let e : Entry :=
    { id := s1.db.nextEntryID, accountID := arg.accountID, amount := arg.amount }
  let db1 := { s1.db with entries := s1.db.entries ++ [e], nextEntryID := s1.db.nextEntryID + 1 }
  Except.ok (e, { s1 with db := db1 })

/-- Query `q.GetAccount`: read the account row with the given id. -/
def GetAccount (i : Int) (s : QState) : Except String (Account × QState) :=
  if atFault s then Except.error injectedErr else
  let s1 := noteOp (Op.opGetAccount i) s
  match lookupAccount s1.db.accounts i with
  | none => Except.error noRowsErr
  | some a => Except.ok (a, s1)

/-- Query `q.UpdateAccount`: set the balance of the account row with the given
id and return the updated row. -/
def UpdateAccount (arg : UpdateAccountParams) (s : QState) :
    Except String (Account × QState) :=
  if atFault s then Except.error injectedErr else
  let s1 := noteOp (Op.opUpdateAccount arg.id arg.balance) s
  match lookupAccount s1.db.accounts arg.id with
  | none => Except.error noRowsErr
  | some a =>
      Except.ok ({ a with balance := arg.balance },
        { s1 with db :=
            { s1.db with accounts := updateBalanceRows s1.db.accounts arg.id arg.balance } })

/-- Outcomes of the transaction-control primitives for one `execTx` call:
`beginErr` is the error of `store.db.BeginTx`, `commitErr` of `tx.Commit`,
`rollbackErr` of `tx.Rollback` (`none` means the call succeeds). -/
structure TxEnv where
  beginErr : Option String
  commitErr : Option String
  rollbackErr : Option String
deriving DecidableEq, Repr

/-- Transaction controls in which begin, commit and rollback all succeed. -/
def cleanEnv : TxEnv := { beginErr := none, commitErr := none, rollbackErr := none }

/-- The `fmt.Errorf("tx err: %v, rb err: %v", err, rbErr)` combined error. -/
def combineErr (e rb : String) : String :=
  "tx err: " ++ e ++ ", rb err: " ++ rb

/-- Model of `Store.execTx`: begin a transaction, run the unit of work `fn` on the
transaction-scoped state, and commit on success or roll back on failure.
Rollback restores the snapshot `s` taken at begin.  If rollback itself fails
the two errors are combined as in the source.  The extra `α` output models
the Go closure's captured result variable: it survives rollback, just as the
captured variable does (`a0` is its zero value, returned when `fn` is never
run). -/
def execTx {σ α : Type} (env : TxEnv) (s : σ) (fn : σ → Option String × σ × α)
    (a0 : α) : Option String × σ × α :=
  match env.beginErr with
  | some e => (some e, s, a0)
  | none =>
    match fn s with
    | (some e, _, a) =>
      match env.rollbackErr with
      | some rb => (some (combineErr e rb), s, a)
      | none => (some e, s, a)
    | (none, s1, a) =>
      match env.commitErr with
      | some ce => (some ce, s, a)
      | none => (none, s1, a)

/-- Input of `Store.TransferTx`. -/
structure TransferTxParams where
  fromAccountID : Int
  toAccountID : Int
  amount : Int
deriving DecidableEq, Repr

/-- Output of `Store.TransferTx`. -/
structure TransferTxResult where
  transfer : Transfer
  fromAccount : Account
  toAccount : Account
  fromEntry : Entry
  toEntry : Entry
deriving DecidableEq, Repr

/-- The zero value of `TransferTxResult` (`var result TransferTxResult`). -/
def emptyResult : TransferTxResult :=
  { transfer := { id := 0, fromAccountID := 0, toAccountID := 0, amount := 0 },
    fromAccount := { id := 0, owner := "", balance := 0, currency := "" },
    toAccount := { id := 0, owner := "", balance := 0, currency := "" },
    fromEntry := { id := 0, accountID := 0, amount := 0 },
    toEntry := { id := 0, accountID := 0, amount := 0 } }

/-- The unit-of-work closure passed by `TransferTx` to `execTx`: create the
transfer record, the two entries, then read-and-update each balance (source
first, then destination), stopping at the first error.  The returned
`TransferTxResult` keeps whatever fields were assigned before a failure,
like the captured `result` variable in the Go closure. -/
def transferBody (arg : TransferTxParams) (s0 : QState) :
    Option String × QState × TransferTxResult :=
  let r0 := emptyResult
  match CreateTransfer
      { fromAccountID := arg.fromAccountID, toAccountID := arg.toAccountID,
        amount := arg.amount } s0 with
  | Except.error e => (some e, s0, r0)
  | Except.ok (t, s1) =>
    let r1 := { r0 with transfer := t }
    match CreateEntry { accountID := arg.fromAccountID, amount := -arg.amount } s1 with
    | Except.error e => (some e, s1, r1)
    | Except.ok (e1, s2) =>
      let r2 := { r1 with fromEntry := e1 }
      match CreateEntry { accountID := arg.toAccountID, amount := arg.amount } s2 with
      | Except.error e => (some e, s2, r2)
      | Except.ok (e2, s3) =>
        let r3 := { r2 with toEntry := e2 }
        match GetAccount arg.fromAccountID s3 with
        | Except.error e => (some e, s3, r3)
        | Except.ok (account1, s4) =>
          match UpdateAccount
              { id := arg.fromAccountID, balance := account1.balance - arg.amount } s4 with
          | Except.error e => (some e, s4, r3)
          | Except.ok (fa, s5) =>
            let r4 := { r3 with fromAccount := fa }
            match GetAccount arg.toAccountID s5 with
            | Except.error e => (some e, s5, r4)
            | Except.ok (account2, s6) =>
              match UpdateAccount
                  { id := arg.toAccountID, balance := account2.balance + arg.amount } s6 with
              | Except.error e => (some e, s6, r4)
              | Except.ok (ta, s7) =>
                (none, s7, { r4 with toAccount := ta })

/-- Model of `Store.TransferTx`: run `transferBody` through `execTx`.  Returns the
(possibly partial) result, the error, and the final query-handle state
(whose `db` is the visible store after commit or rollback). -/
def TransferTx (env : TxEnv) (failAt : Option Nat) (db : DBState)
    (arg : TransferTxParams) : TransferTxResult × Option String × QState :=
  let s0 : QState := { db := db, failAt := failAt, step := 0, log := [] }
  let out := execTx env s0 (transferBody arg) emptyResult
  (out.2.2, out.1, out.2.1)

/-- Whether an operation is a balance update of account `i`. -/
def isUpdateOf (i : Int) : Op → Bool
  | Op.opUpdateAccount j _ => j == i
  | _ => false

/-- Position of the first balance update of account `i` in a trace
(the trace's length when there is none). -/
def firstUpdateIdx (log : List Op) (i : Int) : Nat :=
  log.findIdx (isUpdateOf i)

/-- Modelled from the spec's wording (for comparison with the code, not taken
from the source): the deadlock-avoidance ordering rule of §4.2 — if
`fromAccountID < toAccountID` the source account's balance update comes
first, otherwise the destination's comes first. -/
abbrev specOrderingRule (arg : TransferTxParams) (log : List Op) : Prop :=
  if arg.fromAccountID < arg.toAccountID then
    firstUpdateIdx log arg.fromAccountID < firstUpdateIdx log arg.toAccountID
  else
    firstUpdateIdx log arg.toAccountID < firstUpdateIdx log arg.fromAccountID

/-- Number of times an `execTx` call invokes its unit of work `g`.  The count
is threaded through the closure-result channel of `execTx`, which (like a
captured variable in the source) survives rollback, so an invocation is
observed on every path. -/
def execTxCalls {σ : Type} (env : TxEnv) (s : σ) (g : σ → Option String × σ) : Nat :=
  (execTx env s (fun t => ((g t).1, (g t).2, 1)) 0).2.2

/-- Characterization of a clean `TransferTx` run between two distinct existing
accounts: the exact result, trace and final store. -/
theorem transferTx_two_accounts (id1 id2 : Int) (o1 o2 c1 c2 : String)
    (b1 b2 a : Int) (h : id1 ≠ id2) :
    TransferTx cleanEnv none (mkDB [⟨id1, o1, b1, c1⟩, ⟨id2, o2, b2, c2⟩]) ⟨id1, id2, a⟩ =
      (⟨⟨1, id1, id2, a⟩, ⟨id1, o1, b1 - a, c1⟩, ⟨id2, o2, b2 + a, c2⟩,
        ⟨1, id1, -a⟩, ⟨2, id2, a⟩⟩,
       none,
       ⟨⟨[⟨id1, o1, b1 - a, c1⟩, ⟨id2, o2, b2 + a, c2⟩],
         [⟨1, id1, -a⟩, ⟨2, id2, a⟩],
         [⟨1, id1, id2, a⟩], 3, 2⟩,
        none, 7,
        [Op.opCreateTransfer id1 id2 a, Op.opCreateEntry id1 (-a),
         Op.opCreateEntry id2 a, Op.opGetAccount id1,
         Op.opUpdateAccount id1 (b1 - a), Op.opGetAccount id2,
         Op.opUpdateAccount id2 (b2 + a)]⟩) := by
  have h2 : id2 ≠ id1 := Ne.symm h
  simp [TransferTx, execTx, transferBody, CreateTransfer, CreateEntry, GetAccount,
    UpdateAccount, mkDB, noteOp, atFault, lookupAccount, updateBalanceRows, cleanEnv,
    emptyResult, h, h2]

/-- Characterization of a clean self-transfer run (`fromAccountID = toAccountID`)
on a single existing account. -/
theorem transferTx_self (i : Int) (o c : String) (b a : Int) :
    TransferTx cleanEnv none (mkDB [⟨i, o, b, c⟩]) ⟨i, i, a⟩ =
      (⟨⟨1, i, i, a⟩, ⟨i, o, b - a, c⟩, ⟨i, o, b - a + a, c⟩,
        ⟨1, i, -a⟩, ⟨2, i, a⟩⟩,
       none,
       ⟨⟨[⟨i, o, b - a + a, c⟩], [⟨1, i, -a⟩, ⟨2, i, a⟩], [⟨1, i, i, a⟩], 3, 2⟩,
        none, 7,
        [Op.opCreateTransfer i i a, Op.opCreateEntry i (-a),
         Op.opCreateEntry i a, Op.opGetAccount i,
         Op.opUpdateAccount i (b - a), Op.opGetAccount i,
         Op.opUpdateAccount i (b - a + a)]⟩) := by
  simp [TransferTx, execTx, transferBody, CreateTransfer, CreateEntry, GetAccount,
    UpdateAccount, mkDB, noteOp, atFault, lookupAccount, updateBalanceRows, cleanEnv,
    emptyResult]

/-- Characterization of a `TransferTx` run in which the statement at index
`k ≤ 6` fails: the injected error is returned and the final query state is the
snapshot taken at begin (the store is untouched). -/
theorem transferTx_fault (id1 id2 : Int) (o1 o2 c1 c2 : String) (b1 b2 a : Int) (k : Nat)
    (h : id1 ≠ id2) (hk : k ≤ 6) :
    (TransferTx cleanEnv (some k) (mkDB [⟨id1, o1, b1, c1⟩, ⟨id2, o2, b2, c2⟩]) ⟨id1, id2, a⟩).2.1 =
        some injectedErr ∧
    (TransferTx cleanEnv (some k) (mkDB [⟨id1, o1, b1, c1⟩, ⟨id2, o2, b2, c2⟩]) ⟨id1, id2, a⟩).2.2 =
        { db := mkDB [⟨id1, o1, b1, c1⟩, ⟨id2, o2, b2, c2⟩], failAt := some k,
          step := 0, log := [] } := by
  have h2 : id2 ≠ id1 := Ne.symm h
  interval_cases k <;>
    simp [TransferTx, execTx, transferBody, CreateTransfer, CreateEntry, GetAccount,
      UpdateAccount, mkDB, noteOp, atFault, lookupAccount, updateBalanceRows, cleanEnv,
      emptyResult, h, h2]

/-- Claim C1, counterexample: a successful transfer from account 2 to account 1
(so `fromAccountID > toAccountID`) still updates the source account's balance
before the destination's, violating the claimed deadlock-avoidance rule that
the destination be updated first in that case. -/
theorem updateOrder_spec_rule_violated :
    (TransferTx cleanEnv none (mkDB [⟨1, "A", 100, "USD"⟩, ⟨2, "B", 50, "USD"⟩]) ⟨2, 1, 5⟩).2.1 =
        none ∧
    ¬ specOrderingRule ⟨2, 1, 5⟩
        (TransferTx cleanEnv none
          (mkDB [⟨1, "A", 100, "USD"⟩, ⟨2, "B", 50, "USD"⟩]) ⟨2, 1, 5⟩).2.2.log := by
  decide

/-- Claim C1 (amended): `TransferTx` applies no account-id ordering to the two
balance updates in step 4; on every successful run between two distinct
accounts the source account's balance is updated before the destination's,
regardless of which id is smaller. -/
theorem updateOrder_source_first (id1 id2 : Int) (o1 o2 c1 c2 : String)
    (b1 b2 a : Int) (h : id1 ≠ id2) :
    firstUpdateIdx
        (TransferTx cleanEnv none
          (mkDB [⟨id1, o1, b1, c1⟩, ⟨id2, o2, b2, c2⟩]) ⟨id1, id2, a⟩).2.2.log id1 <
    firstUpdateIdx
        (TransferTx cleanEnv none
          (mkDB [⟨id1, o1, b1, c1⟩, ⟨id2, o2, b2, c2⟩]) ⟨id1, id2, a⟩).2.2.log id2 := by
  rw [transferTx_two_accounts id1 id2 o1 o2 c1 c2 b1 b2 a h]
  have hb : (id1 == id2) = false := beq_eq_false_iff_ne.mpr h
  have hb2 : (id2 == id1) = false := beq_eq_false_iff_ne.mpr (Ne.symm h)
  simp [firstUpdateIdx, isUpdateOf, List.findIdx_cons, hb, hb2]

/-- Witness for the amended claim C1, at a transfer with
`fromAccountID = 2 > 1 = toAccountID`. -/
theorem updateOrder_source_first_witness :
    (2 : Int) ≠ 1 ∧
    (firstUpdateIdx
        (TransferTx cleanEnv none
          (mkDB [⟨2, "B", 50, "USD"⟩, ⟨1, "A", 100, "USD"⟩]) ⟨2, 1, 5⟩).2.2.log 2 <
     firstUpdateIdx
        (TransferTx cleanEnv none
          (mkDB [⟨2, "B", 50, "USD"⟩, ⟨1, "A", 100, "USD"⟩]) ⟨2, 1, 5⟩).2.2.log 1) :=
  ⟨by decide, updateOrder_source_first 2 1 "B" "A" "USD" "USD" 50 100 5 (by decide)⟩

/-- Claim C2: when any one of the five writes of `TransferTx` (transfer insert,
two entry inserts, two balance updates, at statement indices 0, 1, 2, 4, 6)
fails, `TransferTx` returns an error and the store is exactly its pre-attempt
state: no balance, entry or transfer write survives. -/
theorem transferTx_write_failure_atomic (id1 id2 : Int) (o1 o2 c1 c2 : String)
    (b1 b2 a : Int) (k : Nat) (h : id1 ≠ id2)
    (hk : k = 0 ∨ k = 1 ∨ k = 2 ∨ k = 4 ∨ k = 6) :
    (TransferTx cleanEnv (some k)
        (mkDB [⟨id1, o1, b1, c1⟩, ⟨id2, o2, b2, c2⟩]) ⟨id1, id2, a⟩).2.1 =
      some injectedErr ∧
    (TransferTx cleanEnv (some k)
        (mkDB [⟨id1, o1, b1, c1⟩, ⟨id2, o2, b2, c2⟩]) ⟨id1, id2, a⟩).2.2.db =
      mkDB [⟨id1, o1, b1, c1⟩, ⟨id2, o2, b2, c2⟩] := by
  have hk6 : k ≤ 6 := by rcases hk with rfl | rfl | rfl | rfl | rfl <;> decide
  have hr := transferTx_fault id1 id2 o1 o2 c1 c2 b1 b2 a k h hk6
  exact ⟨hr.1, by rw [hr.2]⟩

/-- Witness for claim C2: failing the third write (the destination entry
insert, index 2) leaves the store unchanged. -/
theorem transferTx_write_failure_atomic_witness :
    ((1 : Int) ≠ 2 ∧ ((2 : Nat) = 0 ∨ (2 : Nat) = 1 ∨ (2 : Nat) = 2 ∨ (2 : Nat) = 4 ∨ (2 : Nat) = 6)) ∧
    ((TransferTx cleanEnv (some 2)
        (mkDB [⟨1, "A", 100, "USD"⟩, ⟨2, "B", 50, "USD"⟩]) ⟨1, 2, 30⟩).2.1 =
       some injectedErr ∧
     (TransferTx cleanEnv (some 2)
        (mkDB [⟨1, "A", 100, "USD"⟩, ⟨2, "B", 50, "USD"⟩]) ⟨1, 2, 30⟩).2.2.db =
       mkDB [⟨1, "A", 100, "USD"⟩, ⟨2, "B", 50, "USD"⟩]) :=
  ⟨⟨by decide, by decide⟩,
   transferTx_write_failure_atomic 1 2 "A" "B" "USD" "USD" 100 50 30 2 (by decide) (by decide)⟩

/-- Claim C3, counterexample: `TransferTx` performs no validation; the spec's
scenario transfer(A→B, −5) on balances {A:100, B:50} is not rejected — it
succeeds, writes a transfer record, and moves the balances to {A:105, B:45}. -/
theorem transferTx_no_validation_counterexample :
    (TransferTx cleanEnv none
        (mkDB [⟨1, "A", 100, "USD"⟩, ⟨2, "B", 50, "USD"⟩]) ⟨1, 2, -5⟩).2.1 = none ∧
    (TransferTx cleanEnv none
        (mkDB [⟨1, "A", 100, "USD"⟩, ⟨2, "B", 50, "USD"⟩]) ⟨1, 2, -5⟩).2.2.db.accounts =
      [⟨1, "A", 105, "USD"⟩, ⟨2, "B", 45, "USD"⟩] ∧
    (TransferTx cleanEnv none
        (mkDB [⟨1, "A", 100, "USD"⟩, ⟨2, "B", 50, "USD"⟩]) ⟨1, 2, -5⟩).2.2.db.transfers =
      [⟨1, 1, 2, -5⟩] := by
  decide

/-- Claim C3 (amended): `TransferTx` has no validation pre-check; a request
with `amount ≤ 0` (between distinct existing accounts) is executed like any
other, performing all five writes and returning no error. -/
theorem transferTx_nonpositive_not_rejected (id1 id2 : Int) (o1 o2 c1 c2 : String)
    (b1 b2 a : Int) (h : id1 ≠ id2) (ha : a ≤ 0) :
    (TransferTx cleanEnv none
        (mkDB [⟨id1, o1, b1, c1⟩, ⟨id2, o2, b2, c2⟩]) ⟨id1, id2, a⟩).2.1 = none ∧
    (TransferTx cleanEnv none
        (mkDB [⟨id1, o1, b1, c1⟩, ⟨id2, o2, b2, c2⟩]) ⟨id1, id2, a⟩).2.2.db.accounts =
      [⟨id1, o1, b1 - a, c1⟩, ⟨id2, o2, b2 + a, c2⟩] ∧
    (TransferTx cleanEnv none
        (mkDB [⟨id1, o1, b1, c1⟩, ⟨id2, o2, b2, c2⟩]) ⟨id1, id2, a⟩).2.2.db.entries =
      [⟨1, id1, -a⟩, ⟨2, id2, a⟩] ∧
    (TransferTx cleanEnv none
        (mkDB [⟨id1, o1, b1, c1⟩, ⟨id2, o2, b2, c2⟩]) ⟨id1, id2, a⟩).2.2.db.transfers =
      [⟨1, id1, id2, a⟩] := by
  simp [transferTx_two_accounts id1 id2 o1 o2 c1 c2 b1 b2 a h]

/-- Witness for the amended claim C3, at the spec's scenario input
transfer(A→B, −5) on balances {A:100, B:50}. -/
theorem transferTx_nonpositive_not_rejected_witness :
    ((1 : Int) ≠ 2 ∧ (-5 : Int) ≤ 0) ∧
    ((TransferTx cleanEnv none
        (mkDB [⟨1, "A", 100, "USD"⟩, ⟨2, "B", 50, "USD"⟩]) ⟨1, 2, -5⟩).2.1 = none ∧
     (TransferTx cleanEnv none
        (mkDB [⟨1, "A", 100, "USD"⟩, ⟨2, "B", 50, "USD"⟩]) ⟨1, 2, -5⟩).2.2.db.accounts =
       [⟨1, "A", 100 - (-5), "USD"⟩, ⟨2, "B", 50 + (-5), "USD"⟩] ∧
     (TransferTx cleanEnv none
        (mkDB [⟨1, "A", 100, "USD"⟩, ⟨2, "B", 50, "USD"⟩]) ⟨1, 2, -5⟩).2.2.db.entries =
       [⟨1, 1, -(-5)⟩, ⟨2, 2, -5⟩] ∧
     (TransferTx cleanEnv none
        (mkDB [⟨1, "A", 100, "USD"⟩, ⟨2, "B", 50, "USD"⟩]) ⟨1, 2, -5⟩).2.2.db.transfers =
       [⟨1, 1, 2, -5⟩]) :=
  ⟨⟨by decide, by decide⟩,
   transferTx_nonpositive_not_rejected 1 2 "A" "B" "USD" "USD" 100 50 (-5)
     (by decide) (by decide)⟩

/-- Claim C4: a valid transfer (positive amount, distinct existing accounts)
succeeds, and in the returned result the source account's balance is its
pre-transfer balance minus the amount while the destination's is its
pre-transfer balance plus the amount. -/
theorem transferTx_balance_deltas (id1 id2 : Int) (o1 o2 c1 c2 : String)
    (b1 b2 a : Int) (h : id1 ≠ id2) (ha : 0 < a) :
    (TransferTx cleanEnv none
        (mkDB [⟨id1, o1, b1, c1⟩, ⟨id2, o2, b2, c2⟩]) ⟨id1, id2, a⟩).2.1 = none ∧
    (TransferTx cleanEnv none
        (mkDB [⟨id1, o1, b1, c1⟩, ⟨id2, o2, b2, c2⟩]) ⟨id1, id2, a⟩).1.fromAccount.balance =
      b1 - a ∧
    (TransferTx cleanEnv none
        (mkDB [⟨id1, o1, b1, c1⟩, ⟨id2, o2, b2, c2⟩]) ⟨id1, id2, a⟩).1.toAccount.balance =
      b2 + a := by
  simp [transferTx_two_accounts id1 id2 o1 o2 c1 c2 b1 b2 a h]

/-- Witness for claim C4, at the spec's scenario: balances {A:100, B:50},
transfer(A→B, 30) yields FromAccount balance 70 and ToAccount balance 80. -/
theorem transferTx_balance_deltas_witness :
    ((1 : Int) ≠ 2 ∧ (0 : Int) < 30) ∧
    ((TransferTx cleanEnv none
        (mkDB [⟨1, "A", 100, "USD"⟩, ⟨2, "B", 50, "USD"⟩]) ⟨1, 2, 30⟩).2.1 = none ∧
     (TransferTx cleanEnv none
        (mkDB [⟨1, "A", 100, "USD"⟩, ⟨2, "B", 50, "USD"⟩]) ⟨1, 2, 30⟩).1.fromAccount.balance =
       100 - 30 ∧
     (TransferTx cleanEnv none
        (mkDB [⟨1, "A", 100, "USD"⟩, ⟨2, "B", 50, "USD"⟩]) ⟨1, 2, 30⟩).1.toAccount.balance =
       50 + 30) :=
  ⟨⟨by decide, by decide⟩,
   transferTx_balance_deltas 1 2 "A" "B" "USD" "USD" 100 50 30 (by decide) (by decide)⟩

/-- Claim C5: a successful transfer of amount `a` creates the FromEntry with
amount `-a` on the source account and the ToEntry with amount `a` on the
destination account, and the two entry amounts sum to zero. -/
theorem transferTx_entries_conserve (id1 id2 : Int) (o1 o2 c1 c2 : String)
    (b1 b2 a : Int) (h : id1 ≠ id2) (ha : 0 < a) :
    (TransferTx cleanEnv none
        (mkDB [⟨id1, o1, b1, c1⟩, ⟨id2, o2, b2, c2⟩]) ⟨id1, id2, a⟩).1.fromEntry.accountID =
      id1 ∧
    (TransferTx cleanEnv none
        (mkDB [⟨id1, o1, b1, c1⟩, ⟨id2, o2, b2, c2⟩]) ⟨id1, id2, a⟩).1.fromEntry.amount =
      -a ∧
    (TransferTx cleanEnv none
        (mkDB [⟨id1, o1, b1, c1⟩, ⟨id2, o2, b2, c2⟩]) ⟨id1, id2, a⟩).1.toEntry.accountID =
      id2 ∧
    (TransferTx cleanEnv none
        (mkDB [⟨id1, o1, b1, c1⟩, ⟨id2, o2, b2, c2⟩]) ⟨id1, id2, a⟩).1.toEntry.amount =
      a ∧
    (TransferTx cleanEnv none
        (mkDB [⟨id1, o1, b1, c1⟩, ⟨id2, o2, b2, c2⟩]) ⟨id1, id2, a⟩).1.fromEntry.amount +
      (TransferTx cleanEnv none
        (mkDB [⟨id1, o1, b1, c1⟩, ⟨id2, o2, b2, c2⟩]) ⟨id1, id2, a⟩).1.toEntry.amount =
      0 := by
  simp [transferTx_two_accounts id1 id2 o1 o2 c1 c2 b1 b2 a h]

/-- Witness for claim C5, at transfer(A→B, 30): entries −30 on A and +30 on B. -/
theorem transferTx_entries_conserve_witness :
    ((1 : Int) ≠ 2 ∧ (0 : Int) < 30) ∧
    ((TransferTx cleanEnv none
        (mkDB [⟨1, "A", 100, "USD"⟩, ⟨2, "B", 50, "USD"⟩]) ⟨1, 2, 30⟩).1.fromEntry.accountID =
       1 ∧
     (TransferTx cleanEnv none
        (mkDB [⟨1, "A", 100, "USD"⟩, ⟨2, "B", 50, "USD"⟩]) ⟨1, 2, 30⟩).1.fromEntry.amount =
       -30 ∧
     (TransferTx cleanEnv none
        (mkDB [⟨1, "A", 100, "USD"⟩, ⟨2, "B", 50, "USD"⟩]) ⟨1, 2, 30⟩).1.toEntry.accountID =
       2 ∧
     (TransferTx cleanEnv none
        (mkDB [⟨1, "A", 100, "USD"⟩, ⟨2, "B", 50, "USD"⟩]) ⟨1, 2, 30⟩).1.toEntry.amount =
       30 ∧
     (TransferTx cleanEnv none
        (mkDB [⟨1, "A", 100, "USD"⟩, ⟨2, "B", 50, "USD"⟩]) ⟨1, 2, 30⟩).1.fromEntry.amount +
       (TransferTx cleanEnv none
         (mkDB [⟨1, "A", 100, "USD"⟩, ⟨2, "B", 50, "USD"⟩]) ⟨1, 2, 30⟩).1.toEntry.amount =
       0) :=
  ⟨⟨by decide, by decide⟩,
   transferTx_entries_conserve 1 2 "A" "B" "USD" "USD" 100 50 30 (by decide) (by decide)⟩

/-- Claim C6: when the unit of work fails in `execTx`, a successful rollback
makes `execTx` return exactly the original error, while a failed rollback
makes it return the single combined error built from both the original and
the rollback failure (the source's `fmt.Errorf` format, dropping neither). -/
theorem execTx_rollback_error_reporting {σ α : Type} (env : TxEnv) (s s' : σ)
    (fn : σ → Option String × σ × α) (a a0 : α) (e : String)
    (hb : env.beginErr = none) (hfn : fn s = (some e, s', a)) :
    execTx env s fn a0 =
      (Option.elim env.rollbackErr (some e) (fun rb => some (combineErr e rb)), s, a) := by
  cases hrb : env.rollbackErr <;> simp [execTx, hb, hfn, hrb]

/-- Witness for claim C6, with a failing unit of work and a failing rollback:
the returned error is the combined one. -/
theorem execTx_rollback_error_reporting_witness :
    ((⟨none, none, some "rb fail"⟩ : TxEnv).beginErr = none ∧
     (fun n => (some "boom", n + 1, (5 : Nat)) : Nat → Option String × Nat × Nat) 0 =
       (some "boom", 1, 5)) ∧
    execTx (⟨none, none, some "rb fail"⟩ : TxEnv) (0 : Nat)
        (fun n => (some "boom", n + 1, (5 : Nat))) 0 =
      (Option.elim (⟨none, none, some "rb fail"⟩ : TxEnv).rollbackErr (some "boom")
        (fun rb => some (combineErr "boom" rb)), 0, 5) :=
  ⟨⟨rfl, rfl⟩,
   execTx_rollback_error_reporting (⟨none, none, some "rb fail"⟩ : TxEnv) 0 1
     (fun n => (some "boom", n + 1, (5 : Nat))) 5 0 "boom" rfl rfl⟩

/-- Claim C7: once the transaction has begun, `execTx` invokes the unit of
work exactly once (the invocation counter threaded through the rollback-proof
closure channel is exactly 1 on every path), and when the unit of work
returns no error the transaction is committed and `execTx` returns the
commit's error value to the caller. -/
theorem execTx_unit_of_work_once {σ α : Type} (env : TxEnv) (s s' : σ)
    (g : σ → Option String × σ) (fn : σ → Option String × σ × α) (a : α) (a0 : α)
    (hb : env.beginErr = none) (hfn : fn s = (none, s', a)) :
    execTxCalls env s g = 1 ∧
    execTx env s fn a0 = (env.commitErr, Option.elim env.commitErr s' (fun _ => s), a) := by
  constructor
  · rcases hg : g s with ⟨oe, t⟩
    cases oe <;> rcases hrb : env.rollbackErr with _ | rb <;>
      rcases hc : env.commitErr with _ | ce <;>
      simp [execTxCalls, execTx, hb, hg, hrb, hc]
  · cases hc : env.commitErr <;> simp [execTx, hb, hfn, hc]

/-- Witness for claim C7, with a clean environment and a succeeding unit of
work: one invocation, committed, no error. -/
theorem execTx_unit_of_work_once_witness :
    (cleanEnv.beginErr = none ∧
     (fun n => ((none : Option String), n + 1, (4 : Nat)) : Nat → Option String × Nat × Nat) 0 =
       (none, 1, 4)) ∧
    (execTxCalls cleanEnv (0 : Nat) (fun n => (none, n + 1)) = 1 ∧
     execTx cleanEnv (0 : Nat) (fun n => ((none : Option String), n + 1, (4 : Nat))) 0 =
       (cleanEnv.commitErr, Option.elim cleanEnv.commitErr 1 (fun _ => 0), 4)) :=
  ⟨⟨rfl, rfl⟩,
   execTx_unit_of_work_once cleanEnv 0 1 (fun n => (none, n + 1))
     (fun n => ((none : Option String), n + 1, (4 : Nat))) 4 0 rfl rfl⟩

/-- Claim C8: the unit of work of `TransferTx` issues its statements in this
strict order — the transfer insert, the debit entry insert for the source,
the credit entry insert for the destination, then the two balance updates,
each as a read of the current balance immediately followed by a write of the
new balance. -/
theorem transferTx_statement_order (id1 id2 : Int) (o1 o2 c1 c2 : String)
    (b1 b2 a : Int) (h : id1 ≠ id2) :
    (TransferTx cleanEnv none
        (mkDB [⟨id1, o1, b1, c1⟩, ⟨id2, o2, b2, c2⟩]) ⟨id1, id2, a⟩).2.2.log =
      [Op.opCreateTransfer id1 id2 a, Op.opCreateEntry id1 (-a), Op.opCreateEntry id2 a,
       Op.opGetAccount id1, Op.opUpdateAccount id1 (b1 - a),
       Op.opGetAccount id2, Op.opUpdateAccount id2 (b2 + a)] := by
  simp [transferTx_two_accounts id1 id2 o1 o2 c1 c2 b1 b2 a h]

/-- Witness for claim C8, at transfer(A→B, 30) on balances {A:100, B:50}. -/
theorem transferTx_statement_order_witness :
    (1 : Int) ≠ 2 ∧
    (TransferTx cleanEnv none
        (mkDB [⟨1, "A", 100, "USD"⟩, ⟨2, "B", 50, "USD"⟩]) ⟨1, 2, 30⟩).2.2.log =
      [Op.opCreateTransfer 1 2 30, Op.opCreateEntry 1 (-30), Op.opCreateEntry 2 30,
       Op.opGetAccount 1, Op.opUpdateAccount 1 (100 - 30),
       Op.opGetAccount 2, Op.opUpdateAccount 2 (50 + 30)] :=
  ⟨by decide, transferTx_statement_order 1 2 "A" "B" "USD" "USD" 100 50 30 (by decide)⟩

/-- Claim C9: a self-transfer (`fromAccountID = toAccountID`) on an existing
account completes without error; the debit update runs first, the credit
update then reads the already-debited balance, so the final balance equals
the initial one, while the transfer record and both entries (−amount and
+amount) are still created. -/
theorem transferTx_self_transfer_net_zero (i : Int) (o c : String) (b a : Int) :
    (TransferTx cleanEnv none (mkDB [⟨i, o, b, c⟩]) ⟨i, i, a⟩).2.1 = none ∧
    (TransferTx cleanEnv none (mkDB [⟨i, o, b, c⟩]) ⟨i, i, a⟩).2.2.db.accounts =
      [⟨i, o, b, c⟩] ∧
    (TransferTx cleanEnv none (mkDB [⟨i, o, b, c⟩]) ⟨i, i, a⟩).2.2.db.entries =
      [⟨1, i, -a⟩, ⟨2, i, a⟩] ∧
    (TransferTx cleanEnv none (mkDB [⟨i, o, b, c⟩]) ⟨i, i, a⟩).2.2.db.transfers =
      [⟨1, i, i, a⟩] := by
  have hba : b - a + a = b := by omega
  simp [transferTx_self, hba]

/-- Claim C10: when beginning the transaction fails, `execTx` returns exactly
the begin error, the unit of work is never invoked (invocation count 0), and
the result does not depend on the commit or rollback outcomes — neither is
attempted. -/
theorem execTx_begin_failure {σ α : Type} (cErr rbErr : Option String) (e : String)
    (s : σ) (g : σ → Option String × σ) (fn : σ → Option String × σ × α) (a0 : α) :
    execTx ⟨some e, cErr, rbErr⟩ s fn a0 = (some e, s, a0) ∧
    execTxCalls ⟨some e, cErr, rbErr⟩ s g = 0 := by
  constructor <;> simp [execTx, execTxCalls]

end SimpleBank
